import Mathlib

/-!
Shallow embedding of the apollo-mcp-server request/response adapter.

The TypeScript sources embedded here are:
- src/apollo/types.ts   : the provider-side and normalized record shapes;
- src/apollo/client.ts  : ApolloClient (searchPeople, enrichPerson, makeRequest,
  normalizeSearchPerson, normalizeEnrichedPerson);
- src/tools/enrich.ts   : enrichPersonInputSchema (the two zod refinement rules)
  and executeEnrichPerson.

Modelling conventions:
- JavaScript null / undefined on a field of type string becomes Option String
  (none); an empty string is some "" and is distinct from none, since the code
  distinguishes the two only through truthiness.
- JavaScript truthiness of an optional string ("x || y", "if (x)") is strTruthy:
  defined and nonempty.  Truthiness of an optional number treats 0 as falsy
  (natTruthy); truthiness of an optional boolean is boolTruthy.
- The HTTP exchange is abstracted by passing the provider's raw response as an
  explicit argument, so every client operation becomes a pure function of the
  validated request parameters and the raw response.
- Record numbers (page counts, employee counts) are modelled as Nat.
-/

namespace ApolloMCP

/-- JavaScript truthiness of an optional string value: defined and nonempty
(undefined, null and the empty string are falsy). -/
def strTruthy : Option String → Bool
  | none => false
  | some s => s != ""

/-- JavaScript truthiness of an optional number value: defined and nonzero. -/
def natTruthy : Option Nat → Bool
  | none => false
  | some n => n != 0

/-- JavaScript truthiness of an optional boolean value: defined and true. -/
def boolTruthy : Option Bool → Bool
  | none => false
  | some b => b

/-- The JavaScript expression x || null on an optional string: keeps x when
truthy, otherwise null. -/
def jsOrNullStr (x : Option String) : Option String :=
  if strTruthy x then x else none

/-- The JavaScript expression x || null on an optional number: keeps x when
truthy (nonzero), otherwise null. -/
def jsOrNullNat (x : Option Nat) : Option Nat :=
  if natTruthy x then x else none

/-- The JavaScript expression x || y on an optional number with a number
fallback, as used for pagination defaulting in ApolloClient.searchPeople. -/
def jsorNat (x : Option Nat) (y : Nat) : Nat :=
  match x with
  | some n => if n = 0 then y else n
  | none => y

/-- ApolloOrganization from src/apollo/types.ts. -/
structure ApolloOrganization where
  id : String
  name : Option String
  website_url : Option String
  linkedin_url : Option String
  primary_domain : Option String
  logo_url : Option String
  industry : Option String
  estimated_num_employees : Option Nat
deriving DecidableEq

/-- ApolloEmployment from src/apollo/types.ts (carried for completeness, never
consulted by the normalizers). -/
structure ApolloEmployment where
  id : String
  title : Option String
  organization_name : Option String
  organization_id : Option String
  current : Bool
  start_date : Option String
  end_date : Option String
deriving DecidableEq

/-- ApolloPersonSearch from src/apollo/types.ts: a person record as returned by
the People Search endpoint. -/
structure ApolloPersonSearch where
  id : String
  first_name : Option String
  last_name : Option String
  name : Option String
  title : Option String
  headline : Option String
  linkedin_url : Option String
  email_status : Option String
  photo_url : Option String
  twitter_url : Option String
  github_url : Option String
  facebook_url : Option String
  state : Option String
  city : Option String
  country : Option String
  organization_id : Option String
  organization : Option ApolloOrganization
  employment_history : Option (List ApolloEmployment)
deriving DecidableEq

/-- ApolloPhoneNumber from src/apollo/types.ts.  The TypeScript declaration
types sanitized_number as string, but the client guards it with a truthiness
check, so the runtime value may also be absent; it is modelled as
Option String with some "" for the present-but-empty case. -/
structure ApolloPhoneNumber where
  raw_number : String
  sanitized_number : Option String
  type : String
  position : Nat
  status : String
deriving DecidableEq

/-- ApolloEnrichedPerson from src/apollo/types.ts: a person record as returned
by the People Enrichment endpoint. -/
structure ApolloEnrichedPerson where
  id : String
  first_name : Option String
  last_name : Option String
  name : Option String
  title : Option String
  headline : Option String
  linkedin_url : Option String
  email : Option String
  email_status : Option String
  personal_emails : Option (List String)
  phone_numbers : Option (List ApolloPhoneNumber)
  sanitized_phone : Option String
  organization_id : Option String
  organization : Option ApolloOrganization
  photo_url : Option String
  twitter_url : Option String
  github_url : Option String
  facebook_url : Option String
  state : Option String
  city : Option String
  country : Option String
  employment_history : Option (List ApolloEmployment)
deriving DecidableEq

/-- The location sub-record of NormalizedPerson (src/apollo/types.ts). -/
structure NormalizedLocation where
  city : Option String
  state : Option String
  country : Option String
deriving DecidableEq

/-- The company sub-record of NormalizedPerson (src/apollo/types.ts). -/
structure NormalizedCompany where
  id : Option String
  name : Option String
  domain : Option String
  website : Option String
  linkedin_url : Option String
  industry : Option String
  employee_count : Option Nat
deriving DecidableEq

/-- The social sub-record of NormalizedPerson (src/apollo/types.ts). -/
structure NormalizedSocial where
  twitter_url : Option String
  github_url : Option String
  facebook_url : Option String
deriving DecidableEq

/-- NormalizedPerson from src/apollo/types.ts: the canonical person shape both
normalizers produce. -/
structure NormalizedPerson where
  apollo_id : String
  name : Option String
  first_name : Option String
  last_name : Option String
  title : Option String
  headline : Option String
  linkedin_url : Option String
  email : Option String
  email_status : Option String
  personal_emails : List String
  phone_numbers : List String
  location : NormalizedLocation
  company : NormalizedCompany
  social : NormalizedSocial
deriving DecidableEq

/-- The company sub-record projection that appears verbatim in both
ApolloClient.normalizeSearchPerson and ApolloClient.normalizeEnrichedPerson
(src/apollo/client.ts): id copies the person's top-level organization_id, and
each remaining field is person.organization?.FIELD || null. -/
def projectCompany (organization_id : Option String)
    (organization : Option ApolloOrganization) : NormalizedCompany :=
  { id := organization_id
    name := jsOrNullStr (organization.bind ApolloOrganization.name)
    domain := jsOrNullStr (organization.bind ApolloOrganization.primary_domain)
    website := jsOrNullStr (organization.bind ApolloOrganization.website_url)
    linkedin_url := jsOrNullStr (organization.bind ApolloOrganization.linkedin_url)
    industry := jsOrNullStr (organization.bind ApolloOrganization.industry)
    employee_count := jsOrNullNat (organization.bind ApolloOrganization.estimated_num_employees) }

/-- ApolloClient.normalizeSearchPerson (src/apollo/client.ts): search results
carry no contact data, so email is forced to null and the personal-email and
phone lists are empty. -/
def ApolloClient.normalizeSearchPerson (person : ApolloPersonSearch) : NormalizedPerson :=
  { apollo_id := person.id
    name := person.name
    first_name := person.first_name
    last_name := person.last_name
    title := person.title
    headline := person.headline
    linkedin_url := person.linkedin_url
    email := none
    email_status := person.email_status
    personal_emails := []
    phone_numbers := []
    location := { city := person.city, state := person.state, country := person.country }
    company := projectCompany person.organization_id person.organization
    social := { twitter_url := person.twitter_url, github_url := person.github_url,
                facebook_url := person.facebook_url } }

/-- One iteration of the phone-number loop in
ApolloClient.normalizeEnrichedPerson: push the entry's sanitized value when it
is truthy and not already collected. -/
def pushSanitized (acc : List String) (s : Option String) : List String :=
  match s with
  | none => acc
  | some s => if s ≠ "" ∧ s ∉ acc then acc ++ [s] else acc

/-- The loop body applied to a whole phone-number entry. -/
def phonePush (acc : List String) (phone : ApolloPhoneNumber) : List String :=
  pushSanitized acc phone.sanitized_number

/-- The seed of the phone-number assembly in
ApolloClient.normalizeEnrichedPerson: the single sanitized_phone when truthy. -/
def phoneInit (sanitized_phone : Option String) : List String :=
  match sanitized_phone with
  | some s => if s ≠ "" then [s] else []
  | none => []

/-- The phone-number assembly at the top of
ApolloClient.normalizeEnrichedPerson (src/apollo/client.ts): seed the list with
sanitized_phone when truthy, then fold the phone_numbers entries (when that
list is present) through the dedup-push loop. -/
def ApolloClient.buildPhoneNumbers (sanitized_phone : Option String)
    (phone_numbers : Option (List ApolloPhoneNumber)) : List String :=
  match phone_numbers with
  | none => phoneInit sanitized_phone
  | some l => l.foldl phonePush (phoneInit sanitized_phone)

/-- ApolloClient.normalizeEnrichedPerson (src/apollo/client.ts): enrichment
results keep their contact data; the phone list is the deduplicated assembly
and a null personal_emails defaults to the empty list. -/
def ApolloClient.normalizeEnrichedPerson (person : ApolloEnrichedPerson) : NormalizedPerson :=
  { apollo_id := person.id
    name := person.name
    first_name := person.first_name
    last_name := person.last_name
    title := person.title
    headline := person.headline
    linkedin_url := person.linkedin_url
    email := person.email
    email_status := person.email_status
    personal_emails := person.personal_emails.getD []
    phone_numbers := ApolloClient.buildPhoneNumbers person.sanitized_phone person.phone_numbers
    location := { city := person.city, state := person.state, country := person.country }
    company := projectCompany person.organization_id person.organization
    social := { twitter_url := person.twitter_url, github_url := person.github_url,
                facebook_url := person.facebook_url } }

/-- The parameters of ApolloClient.searchPeople (src/apollo/client.ts): every
field is optional at the client level. -/
structure SearchParams where
  person_titles : Option (List String)
  person_locations : Option (List String)
  q_keywords : Option String
  page : Option Nat
  per_page : Option Nat
deriving DecidableEq

/-- The pagination block of a raw provider search response; each field may be
missing. -/
structure RawPagination where
  page : Option Nat
  per_page : Option Nat
  total_entries : Option Nat
  total_pages : Option Nat
deriving DecidableEq

/-- A raw provider search response: the people list and the pagination block
may each be missing. -/
structure RawSearchResponse where
  people : Option (List ApolloPersonSearch)
  pagination : Option RawPagination
deriving DecidableEq

/-- The pagination block of ApolloSearchResponse (src/apollo/types.ts): all
four fields are always present after defaulting. -/
structure Pagination where
  page : Nat
  per_page : Nat
  total_entries : Nat
  total_pages : Nat
deriving DecidableEq

/-- ApolloSearchResponse from src/apollo/types.ts, as produced by
ApolloClient.searchPeople. -/
structure ApolloSearchResponse where
  people : List ApolloPersonSearch
  pagination : Pagination
deriving DecidableEq

/-- The response-shaping part of ApolloClient.searchPeople
(src/apollo/client.ts): people defaults to the empty list, and each pagination
field is response.pagination?.FIELD || fallback, where page and per_page fall
back to params.page || 1 and params.per_page || 25 and the totals fall back
to 0.  The request-body construction and the HTTP call itself are abstracted
into the raw response argument. -/
def ApolloClient.searchPeople (params : SearchParams) (resp : RawSearchResponse) :
    ApolloSearchResponse :=
  { people := resp.people.getD []
    pagination :=
      { page := jsorNat (resp.pagination.bind RawPagination.page) (jsorNat params.page 1)
        per_page := jsorNat (resp.pagination.bind RawPagination.per_page)
          (jsorNat params.per_page 25)
        total_entries := jsorNat (resp.pagination.bind RawPagination.total_entries) 0
        total_pages := jsorNat (resp.pagination.bind RawPagination.total_pages) 0 } }

/-- The observable parts of a fetch response consumed by
ApolloClient.makeRequest: the ok flag, the status code, the status text and
the body text read on the error path. -/
structure HttpResponse where
  ok : Bool
  status : Nat
  statusText : String
  bodyText : String
deriving DecidableEq

/-- ApolloClient.makeRequest (src/apollo/client.ts): the HTTP exchange is
abstracted by the explicit response argument; on a non-ok response the thrown
Error message carries exactly the status code and status text (the api key,
the request body and the response body text are never put in the error), and
on an ok response the raw response is returned for JSON parsing by the
caller. -/
def ApolloClient.makeRequest {β : Type} (apiKey : String) (body : β)
    (resp : HttpResponse) : Except String HttpResponse :=
  if resp.ok then Except.ok resp
  else Except.error ("Apollo API error: " ++ toString resp.status ++ " " ++ resp.statusText)

/-- ApolloEnrichmentRequest from src/apollo/types.ts. -/
structure ApolloEnrichmentRequest where
  email : Option String
  linkedin_url : Option String
  first_name : Option String
  last_name : Option String
  name : Option String
  organization_name : Option String
  domain : Option String
  reveal_personal_emails : Option Bool
  reveal_phone_number : Option Bool
  run_waterfall_email : Option Bool
  run_waterfall_phone : Option Bool
  webhook_url : Option String
deriving DecidableEq

/-- The JSON body assembled by ApolloClient.enrichPerson, with none standing
for an omitted key. -/
structure EnrichBody where
  email : Option String
  linkedin_url : Option String
  first_name : Option String
  last_name : Option String
  name : Option String
  organization_name : Option String
  domain : Option String
  reveal_personal_emails : Option Bool
  reveal_phone_number : Option Bool
  run_waterfall_email : Option Bool
  run_waterfall_phone : Option Bool
  webhook_url : Option String
deriving DecidableEq

/-- The body construction of ApolloClient.enrichPerson (src/apollo/client.ts):
each identifier key (and webhook_url) is set only when the parameter is truthy,
and each reveal/waterfall flag key is set to true only when the parameter flag
is truthy; otherwise the key is omitted. -/
def ApolloClient.enrichPersonBody (params : ApolloEnrichmentRequest) : EnrichBody :=
  { email := if strTruthy params.email then params.email else none
    linkedin_url := if strTruthy params.linkedin_url then params.linkedin_url else none
    first_name := if strTruthy params.first_name then params.first_name else none
    last_name := if strTruthy params.last_name then params.last_name else none
    name := if strTruthy params.name then params.name else none
    organization_name :=
      if strTruthy params.organization_name then params.organization_name else none
    domain := if strTruthy params.domain then params.domain else none
    reveal_personal_emails :=
      if boolTruthy params.reveal_personal_emails then some true else none
    reveal_phone_number := if boolTruthy params.reveal_phone_number then some true else none
    run_waterfall_email := if boolTruthy params.run_waterfall_email then some true else none
    run_waterfall_phone := if boolTruthy params.run_waterfall_phone then some true else none
    webhook_url := if strTruthy params.webhook_url then params.webhook_url else none }

/-- A raw provider enrichment response: every field may be missing. -/
structure RawEnrichResponse where
  person : Option ApolloEnrichedPerson
  status : Option String
  enrichment_request_id : Option String
  enrichment_status : Option String
  credits_used : Option Nat
deriving DecidableEq

/-- ApolloEnrichmentResponse from src/apollo/types.ts, as produced by
ApolloClient.enrichPerson. -/
structure ApolloEnrichmentResponse where
  person : Option ApolloEnrichedPerson
  status : String
  enrichment_request_id : Option String
  enrichment_status : Option String
  credits_used : Option Nat
deriving DecidableEq

/-- The response-shaping part of ApolloClient.enrichPerson
(src/apollo/client.ts): person is response.person || null, the status string
is response.status || unknown, and the remaining fields pass through. -/
def ApolloClient.enrichPersonResult (resp : RawEnrichResponse) : ApolloEnrichmentResponse :=
  { person := resp.person
    status :=
      match resp.status with
      | some s => if s ≠ "" then s else "unknown"
      | none => "unknown"
    enrichment_request_id := resp.enrichment_request_id
    enrichment_status := resp.enrichment_status
    credits_used := resp.credits_used }

/-- ApolloClient.enrichPerson (src/apollo/client.ts), split into its two pure
halves: the request body it would POST and the shaped response. -/
def ApolloClient.enrichPerson (params : ApolloEnrichmentRequest) (resp : RawEnrichResponse) :
    EnrichBody × ApolloEnrichmentResponse :=
  (ApolloClient.enrichPersonBody params, ApolloClient.enrichPersonResult resp)

/-- The record produced by parsing raw input against the structural part of
enrichPersonInputSchema (src/tools/enrich.ts): all fields optional except the
two reveal flags, which zod defaults to false. -/
structure EnrichPersonInput where
  email : Option String
  linkedin_url : Option String
  first_name : Option String
  last_name : Option String
  name : Option String
  organization_name : Option String
  domain : Option String
  reveal_personal_emails : Bool
  reveal_phone_number : Bool
  run_waterfall_email : Option Bool
  run_waterfall_phone : Option Bool
  webhook_url : Option String
deriving DecidableEq

/-- The first refinement of enrichPersonInputSchema (src/tools/enrich.ts):
at least one identifier must be provided. -/
def hasIdentifier (data : EnrichPersonInput) : Bool :=
  strTruthy data.email || strTruthy data.linkedin_url ||
    (strTruthy data.first_name && strTruthy data.last_name &&
      (strTruthy data.organization_name || strTruthy data.domain)) ||
    (strTruthy data.name && (strTruthy data.organization_name || strTruthy data.domain))

/-- The second refinement of enrichPersonInputSchema (src/tools/enrich.ts):
if either waterfall flag is enabled, webhook_url is required. -/
def webhookRuleOk (data : EnrichPersonInput) : Bool :=
  if boolTruthy data.run_waterfall_email || boolTruthy data.run_waterfall_phone then
    strTruthy data.webhook_url
  else true

/-- The failure cases of the two refinements of enrichPersonInputSchema. -/
inductive ValidationError where
  | noIdentifier
  | webhookRequired
deriving DecidableEq

/-- enrichPersonInputSchema.parse on an already-structurally-valid record:
apply the two refinements in order and reject with the corresponding message
when one fails. -/
def enrichPersonInputSchemaParse (data : EnrichPersonInput) :
    Except ValidationError EnrichPersonInput :=
  if hasIdentifier data then
    if webhookRuleOk data then Except.ok data
    else Except.error ValidationError.webhookRequired
  else Except.error ValidationError.noIdentifier

/-- EnrichmentResult from src/apollo/types.ts: the outcome shape returned by
executeEnrichPerson. -/
structure EnrichmentResult where
  person : Option NormalizedPerson
  status : String
  enrichment_request_id : Option String
  enrichment_status : Option String
  is_async : Bool
  webhook_url : Option String
deriving DecidableEq

/-- executeEnrichPerson (src/tools/enrich.ts): validate the input, compute
isAsync from the waterfall flags, resolve the effective webhook URL
(explicit input value, else the server default but only when async), build the
client request, shape the provider response, normalize the person when
present, and assemble the outcome; webhook_url is echoed in the outcome only
when the call is async.  A thrown zod validation error is modelled as
Except.error. -/
def executeEnrichPerson (input : EnrichPersonInput) (serverWebhookUrl : Option String)
    (resp : RawEnrichResponse) : Except ValidationError EnrichmentResult :=
  match enrichPersonInputSchemaParse input with
  | Except.error e => Except.error e
  | Except.ok validatedInput =>
    let isAsync : Bool :=
      boolTruthy validatedInput.run_waterfall_email ||
        boolTruthy validatedInput.run_waterfall_phone
    let webhookUrl : Option String :=
      if strTruthy validatedInput.webhook_url then validatedInput.webhook_url
      else if isAsync then serverWebhookUrl else none
    let request : ApolloEnrichmentRequest :=
      { email := validatedInput.email
        linkedin_url := validatedInput.linkedin_url
        first_name := validatedInput.first_name
        last_name := validatedInput.last_name
        name := validatedInput.name
        organization_name := validatedInput.organization_name
        domain := validatedInput.domain
        reveal_personal_emails := some validatedInput.reveal_personal_emails
        reveal_phone_number := some validatedInput.reveal_phone_number
        run_waterfall_email := validatedInput.run_waterfall_email
        run_waterfall_phone := validatedInput.run_waterfall_phone
        webhook_url := webhookUrl }
    let response := (ApolloClient.enrichPerson request resp).2
    Except.ok
      { person := Option.map ApolloClient.normalizeEnrichedPerson response.person
        status := response.status
        enrichment_request_id := response.enrichment_request_id
        enrichment_status := response.enrichment_status
        is_async := isAsync
        webhook_url := if isAsync then webhookUrl else none }

/-- True exactly when the executor outcome is a validation rejection. -/
def isValidationFailure (x : Except ValidationError EnrichmentResult) : Bool :=
  match x with
  | Except.error _ => true
  | Except.ok _ => false

end ApolloMCP

-- Decidable equality on Except, for evaluating executor outcomes on
-- concrete inputs.
deriving instance DecidableEq for Except

namespace ApolloMCP

/-! ### Spec-side definitions

These definitions follow the wording of the specification and of the claims,
for comparison against the code-derived definitions above. -/

/-- Modelled from the spec: a field counts as provided when it holds a
nonempty string — the Prop counterpart of the truthiness tests in the code. -/
def presentNonempty (o : Option String) : Prop := ∃ s, o = some s ∧ s ≠ ""

/-- Modelled from the spec: at least one of email, profile URL, first and last
name together with an organization name or domain, or full name together with
an organization name or domain, must be present. -/
def specHasIdentifier (d : EnrichPersonInput) : Prop :=
  presentNonempty d.email ∨ presentNonempty d.linkedin_url ∨
    (presentNonempty d.first_name ∧ presentNonempty d.last_name ∧
      (presentNonempty d.organization_name ∨ presentNonempty d.domain)) ∨
    (presentNonempty d.name ∧ (presentNonempty d.organization_name ∨ presentNonempty d.domain))

/-- Modelled from the spec: if either async waterfall flag is set, an explicit
webhook URL must be present in the input. -/
def specWebhookRule (d : EnrichPersonInput) : Prop :=
  (d.run_waterfall_email = some true ∨ d.run_waterfall_phone = some true) →
    presentNonempty d.webhook_url

/-- Modelled from the spec wording of the phone-number assembly taken
literally: append an entry whenever its sanitized value is not already in the
list, with no emptiness test. -/
def specPhonePush (acc : List String) (s : Option String) : List String :=
  match s with
  | none => acc
  | some s => if s ∉ acc then acc ++ [s] else acc

/-- Modelled from the spec wording of the phone-number assembly taken
literally: first take the single sanitized phone when present, then fold the
entries through specPhonePush. -/
def specPhoneAssembly (sanitized_phone : Option String) (sans : List (Option String)) :
    List String :=
  let init : List String :=
    match sanitized_phone with
    | some s => [s]
    | none => []
  sans.foldl specPhonePush init

/-- The amended phone-number assembly description: first take the sanitized
phone when present and nonempty, then append each entry whose sanitized value
is present, nonempty and not already in the list. -/
def specPhoneAssemblyNE (sanitized_phone : Option String) (sans : List (Option String)) :
    List String :=
  let init : List String :=
    match sanitized_phone with
    | some s => if s ≠ "" then [s] else []
    | none => []
  sans.foldl pushSanitized init

/-- A phone-number entry with a present and nonempty sanitized value. -/
def goodPhoneEntry (phone : ApolloPhoneNumber) : Bool :=
  match phone.sanitized_number with
  | none => false
  | some s => s != ""

/-! ### Concrete fixtures -/

/-- The enrichment input with every optional field absent (the parse of the
empty JSON object, after zod defaults the two reveal flags to false). -/
def emptyEnrichInput : EnrichPersonInput :=
  { email := none, linkedin_url := none, first_name := none, last_name := none,
    name := none, organization_name := none, domain := none,
    reveal_personal_emails := false, reveal_phone_number := false,
    run_waterfall_email := none, run_waterfall_phone := none, webhook_url := none }

/-- A raw enrichment response with every field absent. -/
def emptyRawEnrichResponse : RawEnrichResponse :=
  { person := none, status := none, enrichment_request_id := none,
    enrichment_status := none, credits_used := none }

/-- A search-result person with every optional field absent. -/
def emptySearchPerson : ApolloPersonSearch :=
  { id := "person_1", first_name := none, last_name := none, name := none, title := none,
    headline := none, linkedin_url := none, email_status := none, photo_url := none,
    twitter_url := none, github_url := none, facebook_url := none, state := none,
    city := none, country := none, organization_id := none, organization := none,
    employment_history := none }

/-- An enrichment-result person with every optional field absent. -/
def emptyEnrichedPerson : ApolloEnrichedPerson :=
  { id := "person_1", first_name := none, last_name := none, name := none, title := none,
    headline := none, linkedin_url := none, email := none, email_status := none,
    personal_emails := none, phone_numbers := none, sanitized_phone := none,
    organization_id := none, organization := none, photo_url := none, twitter_url := none,
    github_url := none, facebook_url := none, state := none, city := none, country := none,
    employment_history := none }

/-- An async enrichment input carrying an identifier but no explicit webhook
URL. -/
def c1Input : EnrichPersonInput :=
  { emptyEnrichInput with email := some "a@b.com", run_waterfall_email := some true }

/-- An enrichment-result person whose only phone entry has an empty sanitized
value. -/
def c2Person : ApolloEnrichedPerson :=
  { emptyEnrichedPerson with
      phone_numbers := some [{ raw_number := "+1 (555) 000-0000", sanitized_number := some "",
                               type := "work", position := 0, status := "valid" }] }

/-- A phone entry whose sanitized value is the given string. -/
def phoneEntry (s : String) : ApolloPhoneNumber :=
  { raw_number := s, sanitized_number := some s, type := "work", position := 0,
    status := "valid" }

/-- An enrichment-result person whose phone entries carry the sanitized values
A, B, A, C. -/
def abacPerson : ApolloEnrichedPerson :=
  { emptyEnrichedPerson with
      phone_numbers := some [phoneEntry "A", phoneEntry "B", phoneEntry "A", phoneEntry "C"] }

/-- An enrichment input carrying an identifier and a waterfall flag but no
webhook URL. -/
def c4Input : EnrichPersonInput :=
  { emptyEnrichInput with email := some "a@b.com", run_waterfall_email := some true }

/-- The enrichment input holding only an email identifier. -/
def c4EmailInput : EnrichPersonInput :=
  { emptyEnrichInput with email := some "a@b.com" }

/-- A synchronous enrichment input that nevertheless supplies a webhook URL. -/
def c5Input : EnrichPersonInput :=
  { emptyEnrichInput with
      email := some "a@b.com",
      webhook_url := some "https://hooks.example.com/cb" }

/-- The outcome the executor produces for c5Input against the empty provider
response. -/
def c5Outcome : EnrichmentResult :=
  { person := none, status := "unknown", enrichment_request_id := none,
    enrichment_status := none, is_async := false, webhook_url := none }

/-- Two failed HTTP responses sharing status code and status text but carrying
different body texts. -/
def failedResponseA : HttpResponse :=
  { ok := false, status := 401, statusText := "Unauthorized", bodyText := "invalid key A" }

/-- See failedResponseA. -/
def failedResponseB : HttpResponse :=
  { ok := false, status := 401, statusText := "Unauthorized", bodyText := "invalid key B" }

/-- A valid search request with page 1 and page size 25. -/
def c7Params : SearchParams :=
  { person_titles := some ["CEO"], person_locations := none, q_keywords := none,
    page := some 1, per_page := some 25 }

/-- A raw search response whose pagination block supplies per_page as the
value 0. -/
def c7Resp : RawSearchResponse :=
  { people := some []
    pagination := some { page := some 2, per_page := some 0, total_entries := some 40,
                         total_pages := some 20 } }

/-- A raw search response with no pagination block at all. -/
def c7RespNoPag : RawSearchResponse :=
  { people := some [], pagination := none }

/-- A search-result person with no nested organization but a top-level
organization id. -/
def c9Person : ApolloPersonSearch :=
  { emptySearchPerson with organization_id := some "org_123", organization := none }

/-- An enrichment-result person with no nested organization but a top-level
organization id. -/
def c9Enriched : ApolloEnrichedPerson :=
  { emptyEnrichedPerson with organization_id := some "org_123", organization := none }

/-- An enrichment-result person with a null personal_emails field and a phone
entry whose sanitized value is empty. -/
def c10Person : ApolloEnrichedPerson :=
  { emptyEnrichedPerson with
      personal_emails := none,
      sanitized_phone := some "+1-555",
      phone_numbers := some [{ raw_number := "+1 555", sanitized_number := some "",
                               type := "mobile", position := 1, status := "ok" }] }

/-! ### Helper lemmas -/

/-- Truthiness of an optional string is presence of a nonempty value. -/
theorem strTruthy_iff (o : Option String) : strTruthy o = true ↔ presentNonempty o := by
  cases o with
  | none => simp [strTruthy, presentNonempty]
  | some s => simp [strTruthy, presentNonempty]

/-- Truthiness of an optional boolean is being the value true. -/
theorem boolTruthy_iff (o : Option Bool) : boolTruthy o = true ↔ o = some true := by
  cases o with
  | none => simp [boolTruthy]
  | some b => cases b <;> simp [boolTruthy]

/-- The identifier refinement agrees with its spec-side reading. -/
theorem hasIdentifier_iff (d : EnrichPersonInput) :
    hasIdentifier d = true ↔ specHasIdentifier d := by
  simp only [hasIdentifier, specHasIdentifier, Bool.or_eq_true, Bool.and_eq_true, strTruthy_iff]
  tauto

/-- The webhook refinement agrees with its spec-side reading. -/
theorem webhookRuleOk_iff (d : EnrichPersonInput) :
    webhookRuleOk d = true ↔ specWebhookRule d := by
  have hflag : (boolTruthy d.run_waterfall_email || boolTruthy d.run_waterfall_phone) = true ↔
      (d.run_waterfall_email = some true ∨ d.run_waterfall_phone = some true) := by
    simp [boolTruthy_iff]
  unfold webhookRuleOk specWebhookRule
  by_cases h : d.run_waterfall_email = some true ∨ d.run_waterfall_phone = some true
  · rw [if_pos (hflag.mpr h), strTruthy_iff]
    exact ⟨fun hw _ => hw, fun hw => hw h⟩
  · rw [if_neg (fun hc => h (hflag.mp hc))]
    constructor
    · intro _ hc; exact absurd hc h
    · intro _; rfl

/-- The schema parse succeeds exactly when both refinements hold. -/
theorem parse_ok_iff (d : EnrichPersonInput) :
    enrichPersonInputSchemaParse d = Except.ok d ↔
      (hasIdentifier d = true ∧ webhookRuleOk d = true) := by
  unfold enrichPersonInputSchemaParse
  by_cases h1 : hasIdentifier d = true
  · by_cases h2 : webhookRuleOk d = true
    · simp [h1, h2]
    · simp [h1, h2]
  · simp [h1]

/-- A successful schema parse returns the input unchanged. -/
theorem parse_ok_eq {d v : EnrichPersonInput}
    (h : enrichPersonInputSchemaParse d = Except.ok v) : v = d := by
  unfold enrichPersonInputSchemaParse at h
  split at h
  · split at h
    · exact (Except.ok.injEq d v).mp h |>.symm
    · simp at h
  · simp at h

/-- The dedup push skips entries with an absent or empty sanitized value. -/
theorem phonePush_of_bad (acc : List String) (e : ApolloPhoneNumber)
    (h : goodPhoneEntry e = false) : phonePush acc e = acc := by
  unfold goodPhoneEntry at h
  unfold phonePush pushSanitized
  cases hs : e.sanitized_number with
  | none => rfl
  | some s =>
    rw [hs] at h
    simp only [bne_eq_false_iff_eq] at h
    subst h
    simp

/-- Filtering out the bad entries first does not change the phone fold. -/
theorem foldl_phonePush_filter (l : List ApolloPhoneNumber) :
    ∀ acc : List String, (l.filter goodPhoneEntry).foldl phonePush acc = l.foldl phonePush acc := by
  induction l with
  | nil => intro acc; rfl
  | cons e t ih =>
    intro acc
    by_cases h : goodPhoneEntry e = true
    · rw [List.filter_cons_of_pos h]
      simp only [List.foldl_cons]
      exact ih _
    · rw [List.filter_cons_of_neg (by simpa using h)]
      simp only [List.foldl_cons]
      rw [phonePush_of_bad acc e (by simpa using h), ih]

/-- Unfolding equation for the dedup push on an absent value. -/
theorem pushSanitized_none (acc : List String) : pushSanitized acc none = acc := rfl

/-- Unfolding equation for the dedup push on a present value. -/
theorem pushSanitized_some (acc : List String) (s : String) :
    pushSanitized acc (some s) = if s ≠ "" ∧ s ∉ acc then acc ++ [s] else acc := rfl

/-- The dedup push preserves distinctness of the accumulator. -/
theorem nodup_pushSanitized (acc : List String) (s : Option String) (h : acc.Nodup) :
    (pushSanitized acc s).Nodup := by
  cases s with
  | none => exact h
  | some s =>
    rw [pushSanitized_some]
    by_cases hc : s ≠ "" ∧ s ∉ acc
    · rw [if_pos hc]
      refine h.append (List.nodup_singleton s) ?_
      intro a ha hs
      rw [List.mem_singleton] at hs
      subst hs
      exact hc.2 ha
    · rw [if_neg hc]; exact h

/-- The phone fold preserves distinctness of the accumulator. -/
theorem nodup_foldl_phonePush (l : List ApolloPhoneNumber) :
    ∀ acc : List String, acc.Nodup → (l.foldl phonePush acc).Nodup := by
  induction l with
  | nil => intro acc h; exact h
  | cons e t ih =>
    intro acc h
    exact ih _ (nodup_pushSanitized acc e.sanitized_number h)

/-- The dedup push never introduces the empty string. -/
theorem empty_not_mem_pushSanitized (acc : List String) (s : Option String)
    (h : "" ∉ acc) : "" ∉ pushSanitized acc s := by
  cases s with
  | none => exact h
  | some s =>
    rw [pushSanitized_some]
    by_cases hc : s ≠ "" ∧ s ∉ acc
    · rw [if_pos hc]
      intro hmem
      rcases List.mem_append.mp hmem with hm | hm
      · exact h hm
      · exact hc.1 (List.mem_singleton.mp hm).symm
    · rw [if_neg hc]; exact h

/-- The phone fold never introduces the empty string. -/
theorem empty_not_mem_foldl_phonePush (l : List ApolloPhoneNumber) :
    ∀ acc : List String, "" ∉ acc → "" ∉ l.foldl phonePush acc := by
  induction l with
  | nil => intro acc h; exact h
  | cons e t ih =>
    intro acc h
    exact ih _ (empty_not_mem_pushSanitized acc e.sanitized_number h)

/-- The code's phone assembly coincides with the amended spec description. -/
theorem buildPhoneNumbers_eq (sp : Option String) (pns : Option (List ApolloPhoneNumber)) :
    ApolloClient.buildPhoneNumbers sp pns =
      specPhoneAssemblyNE sp ((pns.getD []).map ApolloPhoneNumber.sanitized_number) := by
  cases pns with
  | none => cases sp <;> rfl
  | some l =>
    unfold ApolloClient.buildPhoneNumbers specPhoneAssemblyNE
    simp only [Option.getD_some]
    rw [List.foldl_map]
    rfl

/-- The seed of the phone assembly is duplicate-free. -/
theorem nodup_phoneInit (sp : Option String) : (phoneInit sp).Nodup := by
  cases sp with
  | none => exact List.nodup_nil
  | some s =>
    simp only [phoneInit]
    by_cases h : s ≠ ""
    · rw [if_pos h]; exact List.nodup_singleton s
    · rw [if_neg h]; exact List.nodup_nil

/-- The seed of the phone assembly never holds the empty string. -/
theorem empty_not_mem_phoneInit (sp : Option String) : "" ∉ phoneInit sp := by
  cases sp with
  | none => simp [phoneInit]
  | some s =>
    simp only [phoneInit]
    by_cases h : s ≠ ""
    · rw [if_pos h]
      intro hm
      exact h (List.mem_singleton.mp hm).symm
    · rw [if_neg h]; simp

/-- The code's phone assembly always yields a duplicate-free list. -/
theorem nodup_buildPhoneNumbers (sp : Option String) (pns : Option (List ApolloPhoneNumber)) :
    (ApolloClient.buildPhoneNumbers sp pns).Nodup := by
  unfold ApolloClient.buildPhoneNumbers
  cases pns with
  | none => exact nodup_phoneInit sp
  | some l => exact nodup_foldl_phonePush l _ (nodup_phoneInit sp)

/-- The code's phone assembly never contains the empty string. -/
theorem empty_not_mem_buildPhoneNumbers (sp : Option String)
    (pns : Option (List ApolloPhoneNumber)) :
    "" ∉ ApolloClient.buildPhoneNumbers sp pns := by
  unfold ApolloClient.buildPhoneNumbers
  cases pns with
  | none => exact empty_not_mem_phoneInit sp
  | some l => exact empty_not_mem_foldl_phonePush l _ (empty_not_mem_phoneInit sp)

/-- An identifier key built by truthiness guarding is omitted unless the
parameter field is supplied. -/
theorem strOmittedOrSupplied (o : Option String) :
    (if strTruthy o then o else none) = none ∨ o.isSome = true := by
  cases o with
  | none => left; simp [strTruthy]
  | some s => right; rfl

/-- A flag key built by truthiness guarding is present (with value true)
exactly when the parameter flag is the value true. -/
theorem flagKey_eq (o : Option Bool) :
    (if boolTruthy o then (some true : Option Bool) else none) =
      if o = some true then some true else none := by
  cases o with
  | none => simp [boolTruthy]
  | some b => cases b <;> simp [boolTruthy]

/-! ### Claim theorems -/

/-- C1, counterexample: for the input holding an email identifier, the
waterfall-email flag and no explicit webhook URL, the enrich executor rejects
with the webhook validation error even though a server default callback URL
is configured — the claim says this input is accepted. -/
theorem c1_counterexample :
    executeEnrichPerson c1Input (some "https://hooks.example.com/cb") emptyRawEnrichResponse =
      Except.error ValidationError.webhookRequired := by decide

/-- C1 (amended): whenever either waterfall flag is truthy and the input
carries no truthy explicit webhook_url, validation rejects the input
regardless of whether a server default callback URL exists — the server
default is never consulted by validation, only after it. -/
theorem c1_amended (d : EnrichPersonInput) (serverWebhookUrl : Option String)
    (resp : RawEnrichResponse)
    (hflag : (boolTruthy d.run_waterfall_email || boolTruthy d.run_waterfall_phone) = true)
    (hweb : strTruthy d.webhook_url = false) :
    isValidationFailure (executeEnrichPerson d serverWebhookUrl resp) = true := by
  have hrule : webhookRuleOk d = false := by
    unfold webhookRuleOk
    rw [if_pos hflag]
    exact hweb
  unfold executeEnrichPerson enrichPersonInputSchemaParse
  by_cases h1 : hasIdentifier d = true
  · simp [h1, hrule, isValidationFailure]
  · simp [h1, isValidationFailure]

/-- C1 witness: the amendment applied to a concrete async input with an
identifier, no explicit webhook URL and a configured server default. -/
theorem c1_amended_witness :
    isValidationFailure (executeEnrichPerson c1Input (some "https://hooks.example.com/cb")
      emptyRawEnrichResponse) = true :=
  c1_amended c1Input (some "https://hooks.example.com/cb") emptyRawEnrichResponse
    (by decide) (by decide)

/-- C2, counterexample: for a person whose only phone entry carries the empty
sanitized value, the normalized list is empty, while the assembly the claim
describes (append whenever the sanitized value is not already in the list)
yields the empty-string entry. -/
theorem c2_counterexample :
    (ApolloClient.normalizeEnrichedPerson c2Person).phone_numbers ≠
        specPhoneAssembly c2Person.sanitized_phone
          ((c2Person.phone_numbers.getD []).map ApolloPhoneNumber.sanitized_number) ∧
      (ApolloClient.normalizeEnrichedPerson c2Person).phone_numbers = [] ∧
      specPhoneAssembly c2Person.sanitized_phone
        ((c2Person.phone_numbers.getD []).map ApolloPhoneNumber.sanitized_number) = [""] := by
  decide

/-- C2 (amended): the normalized phone list is built by first taking the
provider's sanitized phone when present and nonempty, then appending each
entry whose sanitized value is present, nonempty and not already in the list;
first-appearance order is preserved, duplicates are dropped, and sanitized
values A, B, A, C yield A, B, C. -/
theorem c2_amended :
    (∀ person : ApolloEnrichedPerson,
        (ApolloClient.normalizeEnrichedPerson person).phone_numbers =
            specPhoneAssemblyNE person.sanitized_phone
              ((person.phone_numbers.getD []).map ApolloPhoneNumber.sanitized_number) ∧
          (ApolloClient.normalizeEnrichedPerson person).phone_numbers.Nodup) ∧
      (ApolloClient.normalizeEnrichedPerson abacPerson).phone_numbers = ["A", "B", "C"] := by
  refine ⟨fun person => ⟨?_, ?_⟩, by decide⟩
  · exact buildPhoneNumbers_eq person.sanitized_phone person.phone_numbers
  · exact nodup_buildPhoneNumbers person.sanitized_phone person.phone_numbers

/-- C3: normalizing any search-result person always yields a null email, an
empty personal-emails list and an empty phone-numbers list, regardless of the
upstream fields. -/
theorem c3_search_contactless (person : ApolloPersonSearch) :
    (ApolloClient.normalizeSearchPerson person).email = none ∧
      (ApolloClient.normalizeSearchPerson person).personal_emails = [] ∧
      (ApolloClient.normalizeSearchPerson person).phone_numbers = [] :=
  ⟨rfl, rfl, rfl⟩

/-- C4, counterexample: an input containing an identifier (an email) is
nevertheless rejected, because it enables a waterfall flag without a webhook
URL, so acceptance is not equivalent to identifier presence. -/
theorem c4_counterexample :
    hasIdentifier c4Input = true ∧
      enrichPersonInputSchemaParse c4Input = Except.error ValidationError.webhookRequired := by
  decide

/-- C4 (amended): validation accepts an input exactly when it contains at
least one identifier (nonempty email, profile URL, first and last name with
an organization name or domain, or full name with an organization name or
domain) and, whenever a waterfall flag is set, a nonempty explicit
webhook_url; in particular the empty object is rejected and an email-only
input is accepted. -/
theorem c4_amended :
    (∀ d : EnrichPersonInput,
        enrichPersonInputSchemaParse d = Except.ok d ↔
          (specHasIdentifier d ∧ specWebhookRule d)) ∧
      enrichPersonInputSchemaParse emptyEnrichInput =
        Except.error ValidationError.noIdentifier ∧
      enrichPersonInputSchemaParse c4EmailInput = Except.ok c4EmailInput := by
  refine ⟨fun d => ?_, by decide, by decide⟩
  rw [parse_ok_iff d, hasIdentifier_iff d, webhookRuleOk_iff d]

/-- C4 witness: the email-only input satisfies both spec-side conditions and
is accepted. -/
theorem c4_amended_witness :
    specHasIdentifier c4EmailInput ∧ specWebhookRule c4EmailInput ∧
      enrichPersonInputSchemaParse c4EmailInput = Except.ok c4EmailInput := by
  have h1 : specHasIdentifier c4EmailInput := Or.inl ⟨"a@b.com", rfl, by decide⟩
  have h2 : specWebhookRule c4EmailInput := by
    intro hc
    rcases hc with hc | hc <;> exact Option.noConfusion hc
  exact ⟨h1, h2, (c4_amended.1 c4EmailInput).mpr ⟨h1, h2⟩⟩

/-- C5: when neither waterfall flag is truthy, the executor outcome carries no
webhook_url, even if the caller supplied one. -/
theorem c5_sync_omits_webhook (input : EnrichPersonInput) (serverWebhookUrl : Option String)
    (resp : RawEnrichResponse) (outcome : EnrichmentResult)
    (hok : executeEnrichPerson input serverWebhookUrl resp = Except.ok outcome)
    (hsync : (boolTruthy input.run_waterfall_email ||
      boolTruthy input.run_waterfall_phone) = false) :
    outcome.webhook_url = none := by
  unfold executeEnrichPerson at hok
  cases hp : enrichPersonInputSchemaParse input with
  | error e => rw [hp] at hok; simp at hok
  | ok v =>
    rw [hp] at hok
    have hv := parse_ok_eq hp
    subst hv
    simp only [Except.ok.injEq] at hok
    subst hok
    simp [hsync]

/-- C5 witness: a synchronous input that supplies a webhook URL still yields
an outcome without one. -/
theorem c5_witness :
    executeEnrichPerson c5Input none emptyRawEnrichResponse = Except.ok c5Outcome ∧
      c5Outcome.webhook_url = none := by
  have hok : executeEnrichPerson c5Input none emptyRawEnrichResponse = Except.ok c5Outcome := by
    decide
  exact ⟨hok, c5_sync_omits_webhook c5Input none emptyRawEnrichResponse c5Outcome hok (by decide)⟩

/-- C6: the error produced on a non-ok HTTP response carries exactly the
status code and status text, so two calls differing only in the API key or
the request body but observing the same status code and status text produce
identical errors. -/
theorem c6_provider_error_minimal {β1 β2 : Type} (k1 k2 : String) (b1 : β1) (b2 : β2)
    (r1 r2 : HttpResponse) (h1 : r1.ok = false) (h2 : r2.ok = false)
    (hs : r1.status = r2.status) (ht : r1.statusText = r2.statusText) :
    ApolloClient.makeRequest k1 b1 r1 = ApolloClient.makeRequest k2 b2 r2 ∧
      ApolloClient.makeRequest k1 b1 r1 =
        Except.error ("Apollo API error: " ++ toString r1.status ++ " " ++ r1.statusText) := by
  unfold ApolloClient.makeRequest
  rw [h1, h2, hs, ht]
  simp

/-- C6 witness: two concrete calls with different keys, bodies and response
body texts but the same status produce the same minimal error. -/
theorem c6_witness :
    ApolloClient.makeRequest "api-key-one" "request-body-one" failedResponseA =
        ApolloClient.makeRequest "api-key-two" "request-body-two" failedResponseB ∧
      ApolloClient.makeRequest "api-key-one" "request-body-one" failedResponseA =
        Except.error ("Apollo API error: " ++ toString failedResponseA.status ++ " " ++
          failedResponseA.statusText) :=
  c6_provider_error_minimal "api-key-one" "api-key-two" "request-body-one" "request-body-two"
    failedResponseA failedResponseB rfl rfl rfl rfl

/-- C7, counterexample: the provider supplies per_page with the value 0, yet
the output pagination carries the request's 25 rather than the supplied
value, so pagination does not always echo upstream-provided values. -/
theorem c7_counterexample :
    c7Resp.pagination.bind RawPagination.per_page = some 0 ∧
      (ApolloClient.searchPeople c7Params c7Resp).pagination.per_page = 25 ∧
      (25 : Nat) ≠ 0 := by decide

/-- C7 (amended): output page and per_page echo the upstream-provided values
when those are nonzero; when the pagination block is omitted they are exactly
the request's own (nonzero) page and per_page with both totals zero; the
search call never fails on missing pagination. -/
theorem c7_amended :
    (∀ (params : SearchParams) (resp : RawSearchResponse) (pg : RawPagination) (n : Nat),
        resp.pagination = some pg → pg.page = some n → n ≠ 0 →
          (ApolloClient.searchPeople params resp).pagination.page = n) ∧
      (∀ (params : SearchParams) (resp : RawSearchResponse) (pg : RawPagination) (n : Nat),
        resp.pagination = some pg → pg.per_page = some n → n ≠ 0 →
          (ApolloClient.searchPeople params resp).pagination.per_page = n) ∧
      (∀ (params : SearchParams) (resp : RawSearchResponse) (a b : Nat),
        resp.pagination = none → params.page = some a → a ≠ 0 →
          params.per_page = some b → b ≠ 0 →
          (ApolloClient.searchPeople params resp).pagination =
            { page := a, per_page := b, total_entries := 0, total_pages := 0 }) := by
  refine ⟨?_, ?_, ?_⟩
  · intro params resp pg n h1 h2 h3
    simp [ApolloClient.searchPeople, jsorNat, h1, h2, h3]
  · intro params resp pg n h1 h2 h3
    simp [ApolloClient.searchPeople, jsorNat, h1, h2, h3]
  · intro params resp a b h0 hpa ha hpb hb
    simp [ApolloClient.searchPeople, jsorNat, h0, hpa, ha, hpb, hb]

/-- C7 witness: the amendment applied to a concrete nonzero upstream page and
to a response with no pagination block. -/
theorem c7_witness :
    (ApolloClient.searchPeople c7Params c7Resp).pagination.page = 2 ∧
      (ApolloClient.searchPeople c7Params c7RespNoPag).pagination =
        { page := 1, per_page := 25, total_entries := 0, total_pages := 0 } := by
  constructor
  · exact c7_amended.1 c7Params c7Resp
      { page := some 2, per_page := some 0, total_entries := some 40, total_pages := some 20 }
      2 rfl rfl (by decide)
  · exact c7_amended.2.2 c7Params c7RespNoPag 1 25 rfl rfl (by decide) rfl (by decide)

/-- C8: the enrichment request body contains each identifier key only when
that parameter was supplied, and contains a reveal or waterfall flag key,
always with value true, exactly when the parameter flag is explicitly true —
absent or false flags are omitted, never sent as false. -/
theorem c8_enrich_body_presence (p : ApolloEnrichmentRequest) :
    ((ApolloClient.enrichPersonBody p).email = none ∨ p.email.isSome = true) ∧
      ((ApolloClient.enrichPersonBody p).linkedin_url = none ∨
        p.linkedin_url.isSome = true) ∧
      ((ApolloClient.enrichPersonBody p).first_name = none ∨
        p.first_name.isSome = true) ∧
      ((ApolloClient.enrichPersonBody p).last_name = none ∨ p.last_name.isSome = true) ∧
      ((ApolloClient.enrichPersonBody p).name = none ∨ p.name.isSome = true) ∧
      ((ApolloClient.enrichPersonBody p).organization_name = none ∨
        p.organization_name.isSome = true) ∧
      ((ApolloClient.enrichPersonBody p).domain = none ∨ p.domain.isSome = true) ∧
      (ApolloClient.enrichPersonBody p).reveal_personal_emails =
        (if p.reveal_personal_emails = some true then some true else none) ∧
      (ApolloClient.enrichPersonBody p).reveal_phone_number =
        (if p.reveal_phone_number = some true then some true else none) ∧
      (ApolloClient.enrichPersonBody p).run_waterfall_email =
        (if p.run_waterfall_email = some true then some true else none) ∧
      (ApolloClient.enrichPersonBody p).run_waterfall_phone =
        (if p.run_waterfall_phone = some true then some true else none) :=
  ⟨strOmittedOrSupplied p.email, strOmittedOrSupplied p.linkedin_url,
    strOmittedOrSupplied p.first_name, strOmittedOrSupplied p.last_name,
    strOmittedOrSupplied p.name, strOmittedOrSupplied p.organization_name,
    strOmittedOrSupplied p.domain, flagKey_eq p.reveal_personal_emails,
    flagKey_eq p.reveal_phone_number, flagKey_eq p.run_waterfall_email,
    flagKey_eq p.run_waterfall_phone⟩

/-- C9, counterexample: with the nested organization absent but a top-level
organization id present, the company sub-record's id field holds that id and
is not null, contradicting that every company field is null. -/
theorem c9_counterexample :
    c9Person.organization = none ∧
      (ApolloClient.normalizeSearchPerson c9Person).company.id = some "org_123" ∧
      (ApolloClient.normalizeSearchPerson c9Person).company.id ≠ none := by decide

/-- C9 (amended): for both normalizers the company and social sub-records are
always present by shape; when the nested organization is missing, every
organization-projected company field (name, domain, website, linkedin_url,
industry, employee_count) is null, while the company id echoes the person's
top-level organization_id. -/
theorem c9_amended :
    (∀ person : ApolloPersonSearch, person.organization = none →
        (ApolloClient.normalizeSearchPerson person).company =
          { id := person.organization_id, name := none, domain := none, website := none,
            linkedin_url := none, industry := none, employee_count := none }) ∧
      (∀ person : ApolloEnrichedPerson, person.organization = none →
        (ApolloClient.normalizeEnrichedPerson person).company =
          { id := person.organization_id, name := none, domain := none, website := none,
            linkedin_url := none, industry := none, employee_count := none }) := by
  constructor
  · intro person h
    simp [ApolloClient.normalizeSearchPerson, projectCompany, jsOrNullStr, jsOrNullNat,
      strTruthy, natTruthy, h]
  · intro person h
    simp [ApolloClient.normalizeEnrichedPerson, projectCompany, jsOrNullStr, jsOrNullNat,
      strTruthy, natTruthy, h]

/-- C9 witness: the amendment applied to concrete search and enrichment
persons with no nested organization but a top-level organization id. -/
theorem c9_witness :
    (ApolloClient.normalizeSearchPerson c9Person).company =
        { id := some "org_123", name := none, domain := none, website := none,
          linkedin_url := none, industry := none, employee_count := none } ∧
      (ApolloClient.normalizeEnrichedPerson c9Enriched).company =
        { id := some "org_123", name := none, domain := none, website := none,
          linkedin_url := none, industry := none, employee_count := none } :=
  ⟨c9_amended.1 c9Person rfl, c9_amended.2 c9Enriched rfl⟩

/-- C10: phone entries with an absent or empty sanitized value are excluded
from the normalized phone list (filtering them away first changes nothing),
the normalized phone list never contains the empty string, and a null
personal_emails field normalizes to the empty list. -/
theorem c10_bad_entries_excluded :
    (∀ person : ApolloEnrichedPerson,
        (ApolloClient.normalizeEnrichedPerson person).phone_numbers =
          (ApolloClient.normalizeEnrichedPerson
            { person with
                phone_numbers :=
                  person.phone_numbers.map (List.filter goodPhoneEntry) }).phone_numbers) ∧
      (∀ person : ApolloEnrichedPerson,
        "" ∉ (ApolloClient.normalizeEnrichedPerson person).phone_numbers) ∧
      (∀ person : ApolloEnrichedPerson, person.personal_emails = none →
        (ApolloClient.normalizeEnrichedPerson person).personal_emails = []) := by
  refine ⟨fun person => ?_, fun person => ?_, fun person h => ?_⟩
  · show ApolloClient.buildPhoneNumbers person.sanitized_phone person.phone_numbers =
      ApolloClient.buildPhoneNumbers person.sanitized_phone
        (person.phone_numbers.map (List.filter goodPhoneEntry))
    cases hp : person.phone_numbers with
    | none => rfl
    | some l =>
      unfold ApolloClient.buildPhoneNumbers
      simp only [Option.map_some']
      exact (foldl_phonePush_filter l _).symm
  · exact empty_not_mem_buildPhoneNumbers person.sanitized_phone person.phone_numbers
  · show person.personal_emails.getD [] = []
    rw [h]
    rfl

/-- C10 witness: a person with a null personal_emails field and an
empty-sanitized phone entry yields no empty-string phone and an empty
personal-email list. -/
theorem c10_witness :
    "" ∉ (ApolloClient.normalizeEnrichedPerson c10Person).phone_numbers ∧
      (ApolloClient.normalizeEnrichedPerson c10Person).personal_emails = [] :=
  ⟨c10_bad_entries_excluded.2.1 c10Person, c10_bad_entries_excluded.2.2 c10Person rfl⟩

end ApolloMCP
